import Mathlib

/-!
Verification of the tile-cache visualization tool (tileview) against its
design specification.

The Rust source converts logged tile-cache snapshots into an SVG
visualization plus an HTML invalidation/interning report.  This file gives
a shallow embedding of the core logic:

* scalar values of type f32 in the source are modelled as rationals;
  decimal rendering of such values is abstracted by a deterministic,
  executable formatter;
* a Rust panic (a call to Option::unwrap on a None) is modelled by the
  whole computation returning none, so a function that can panic has
  result type Option _;
* the HashMap inputs (the ItemUid to display-string map, and the tile map
  of a tile cache) are modelled as association lists looked up by key
  equality, matching the unique-key invariant stated in the specification;
* types that the source imports from the webrender / euclid crates
  (rather than defining) are modelled from the specification, and carry a
  doc comment saying so.
-/

/-- A 2D point, modelling euclid Point2D with f32 scalars as rationals. -/
structure PointQ where
  x : ℚ
  y : ℚ
deriving DecidableEq, Repr

/-- A 2D size, modelling euclid Size2D with f32 scalars as rationals. -/
structure SizeQ where
  width : ℚ
  height : ℚ
deriving DecidableEq, Repr

/-- A rectangle given by origin and size, modelling euclid Rect. -/
structure RectQ where
  origin : PointQ
  size : SizeQ
deriving DecidableEq, Repr

/-- A box given by min and max corners, modelling euclid Box2D (the type
of tile-tree node rectangles and of primitive clip boxes). -/
structure Box2Q where
  min : PointQ
  max : PointQ
deriving DecidableEq, Repr

/-- Conversion from a min/max box to an origin/size rectangle (euclid
Box2D::to_rect, used as node.rect.to_rect() in the source). -/
def Box2Q.to_rect (b : Box2Q) : RectQ :=
  { origin := b.min
    size := { width := b.max.x - b.min.x, height := b.max.y - b.min.y } }

/-- Modelled from the spec: the Geometry Projector parameters, a
3D-capable transform restricted to a 2D output (euclid Transform3D, not
part of the repository source).  Only the components read by the 2D
projection are modelled. -/
structure Transform3D where
  m11 : ℚ
  m12 : ℚ
  m14 : ℚ
  m21 : ℚ
  m22 : ℚ
  m24 : ℚ
  m41 : ℚ
  m42 : ℚ
  m44 : ℚ
deriving DecidableEq, Repr

/-- Modelled from the spec: projection of one point under the transform
(euclid Transform3D::transform_point2d, not part of the repository
source).  It fails, returning none, when the homogeneous w coordinate is
not positive, i.e. when the point would project to infinity or behind the
eye, so that no finite output point exists. -/
def transform_point2d (t : Transform3D) (p : PointQ) : Option PointQ :=
  let w := p.x * t.m14 + p.y * t.m24 + t.m44
  if 0 < w then
    some { x := (p.x * t.m11 + p.y * t.m21 + t.m41) / w
           y := (p.x * t.m12 + p.y * t.m22 + t.m42) / w }
  else
    none

/-- Modelled from the spec: the Geometry Projector contract
project(rect, transform).  It applies the transform to all four corners
of the rectangle and returns the axis-aligned bounding box of the result,
failing (none) when any corner has no finite projection (euclid
Transform3D::outer_transformed_rect, not part of the repository
source). -/
def outer_transformed_rect (t : Transform3D) (r : RectQ) : Option RectQ := do
  let p1 ← transform_point2d t { x := r.origin.x, y := r.origin.y }
  let p2 ← transform_point2d t
    { x := r.origin.x + r.size.width, y := r.origin.y + r.size.height }
  let p3 ← transform_point2d t { x := r.origin.x + r.size.width, y := r.origin.y }
  let p4 ← transform_point2d t { x := r.origin.x, y := r.origin.y + r.size.height }
  let minx := min (min p1.x p2.x) (min p3.x p4.x)
  let miny := min (min p1.y p2.y) (min p3.y p4.y)
  let maxx := max (max p1.x p2.x) (max p3.x p4.x)
  let maxy := max (max p1.y p2.y) (max p3.y p4.y)
  pure { origin := { x := minx, y := miny }
         size := { width := maxx - minx, height := maxy - miny } }

/-- Parameters to tweak the SVG generation (struct SvgSettings). -/
structure SvgSettings where
  scale : ℚ
  x : ℚ
  y : ℚ
deriving DecidableEq, Repr

/-- Deterministic decimal rendering of an f32 value formatted with the
Rust Display placeholder, abstracted over the rational model: an integral
value prints as its integer, any other value as num/den.  No verified
claim depends on the digits this produces, only on the rendering being a
fixed function of the value. -/
def fmtQ (q : ℚ) : String :=
  if q.den = 1 then toString q.num else toString q.num ++ "/" ++ toString q.den

/-- Deterministic decimal rendering of an f32 value formatted with two
decimal places in the source, abstracted over the rational model as
rounding to centesimals.  No verified claim depends on the digits. -/
def fmt2 (q : ℚ) : String :=
  let scaled : Int := ⌊q * 100 + 1 / 2⌋
  let sign := if scaled < 0 then "-" else ""
  let m := scaled.natAbs
  sign ++ toString (m / 100) ++ "." ++
    (if m % 100 < 10 then "0" else "") ++ toString (m % 100)

/-- The recursive tile tree (webrender TileNode with its TileNodeKind
payload): a node carries a rectangle and is either a Leaf or an interior
Node with an ordered list of children.  Leaf payloads that the source
never reads are omitted. -/
inductive TileNode where
  | Leaf (rect : Box2Q)
  | Node (rect : Box2Q) (children : List TileNode)
deriving Repr

/-- The single rectangle fragment emitted for one leaf of the tile tree
(the format call in the Leaf arm of tile_node_to_svg). -/
def leaf_rect_svg (rect_world : RectQ) (svg_settings : SvgSettings) : String :=
  "<rect x=\"" ++ fmt2 (rect_world.origin.x * svg_settings.scale + svg_settings.x) ++
  "\" y=\"" ++ fmt2 (rect_world.origin.y * svg_settings.scale + svg_settings.y) ++
  "\" width=\"" ++ fmt2 (rect_world.size.width * svg_settings.scale) ++
  "\" height=\"" ++ fmt2 (rect_world.size.height * svg_settings.scale) ++
  "\" />\n"

mutual

/-- The Tile Tree Flattener (fn tile_node_to_svg).  A Leaf projects its
rectangle and emits one fragment; the source unwraps the projection, so a
failed projection is a panic, modelled by the none result.  An interior
Node folds over its children in order, concatenating their output. -/
def tile_node_to_svg (node : TileNode) (transform : Transform3D)
    (svg_settings : SvgSettings) : Option String :=
  match node with
  | .Leaf rect =>
      (outer_transformed_rect transform rect.to_rect).map
        (fun rect_world => leaf_rect_svg rect_world svg_settings)
  | .Node _ children => tile_node_children_fold children transform svg_settings ""

/-- The children.iter().fold of the Node arm of tile_node_to_svg, with
the accumulated string made explicit; a panic in any child propagates. -/
def tile_node_children_fold (children : List TileNode) (transform : Transform3D)
    (svg_settings : SvgSettings) (acc : String) : Option String :=
  match children with
  | [] => some acc
  | child :: rest =>
      match tile_node_to_svg child transform svg_settings with
      | none => none
      | some s => tile_node_children_fold rest transform svg_settings (acc ++ s)

end

mutual

/-- The rectangles of all leaves of a tile tree, in traversal order. -/
def TileNode.leafRects (node : TileNode) : List Box2Q :=
  match node with
  | .Leaf rect => [rect]
  | .Node _ children => leafRectsList children

/-- The leaf rectangles of a list of tile trees, in order. -/
def leafRectsList (nodes : List TileNode) : List Box2Q :=
  match nodes with
  | [] => []
  | node :: rest => node.leafRects ++ leafRectsList rest

end

/-- A color with f32 channels in [0,1], modelled as rationals (webrender
api ColorF, not part of the repository source). -/
structure ColorF where
  r : ℚ
  g : ℚ
  b : ℚ
  a : ℚ
deriving DecidableEq, Repr

/-- An opaque interned-item identifier (webrender ItemUid); get_uid
returns the underlying integer. -/
structure ItemUid where
  uid : ℕ
deriving DecidableEq, Repr

/-- The integer returned by ItemUid::get_uid. -/
def ItemUid.get_uid (i : ItemUid) : ℕ := i.uid

instance : BEq ItemUid := instBEqOfDecidableEq

/-- Modelled from the spec: one old/new structured record of a
descriptor-level content change, keyed by a primitive identifier and
carrying a clip-region sub-field (webrender PrimitiveDescriptor, not part
of the repository source; only the fields the source reads are
modelled). -/
structure PrimitiveDescriptor where
  prim_uid : ItemUid
  prim_clip_box : Box2Q
deriving DecidableEq, Repr

/-- Modelled from the spec: the nested clip-list change detail - a count
change, a single-identifier substitution, or another variant that the
source dumps generically (webrender CompareHelperResult, not part of the
repository source). -/
inductive CompareHelperResult where
  | Equal
  | Count (prev_count : ℕ) (curr_count : ℕ)
  | NotEqual (prev : ItemUid) (curr : ItemUid)
deriving DecidableEq, Repr

/-- Modelled from the spec: the content-change detail, distinguishing a
descriptor-level change from a clip-list change (webrender
PrimitiveCompareResultDetail, not part of the repository source; Equal
stands for the variants the source dumps generically). -/
inductive PrimitiveCompareResultDetail where
  | Equal
  | Descriptor (old : PrimitiveDescriptor) (new : PrimitiveDescriptor)
  | Clip (detail : CompareHelperResult)
deriving DecidableEq, Repr

/-- Modelled from the spec: the coarse content-comparison result that the
source binds and explicitly discards (webrender PrimitiveCompareResult,
not part of the repository source). -/
inductive PrimCompareResult where
  | Equal
  | NotEqual
deriving DecidableEq, Repr

/-- The invalidation cause of a tile: a tagged variant with one active
variant per tile (webrender InvalidationReason, matching the variants the
source matches on). -/
inductive InvalidationReason where
  | FractionalOffset (old : PointQ) (new : PointQ)
  | BackgroundColor (old : Option ColorF) (new : Option ColorF)
  | SurfaceOpacityChanged ( became_opaque : Bool)
  | NoTexture
  | NoSurface
  | PrimCount (old : Option (List ItemUid)) (new : Option (List ItemUid))
  | CompositorKindChanged
  | Content (prim_compare_result : PrimCompareResult)
            (prim_compare_result_detail : Option PrimitiveCompareResultDetail)
  | ValidRectChanged
  | ScaleChanged
deriving DecidableEq, Repr

/-- One cached tile of a snapshot (webrender TileSerializer; only the
fields the source reads are modelled). -/
structure TileSerializer where
  rect : RectQ
  invalidation_reason : Option InvalidationReason
  background_color : Option ColorF
deriving DecidableEq, Repr

/-- A tile coordinate key (webrender TileOffset, an integer x,y pair). -/
structure TileOffset where
  x : ℤ
  y : ℤ
deriving DecidableEq, Repr

instance : BEq TileOffset := instBEqOfDecidableEq

/-- The tile-cache state of one snapshot (webrender
TileCacheInstanceSerializer): the slice index, an optional background
color, and the keyed tile map, modelled as an association list with
unique keys. -/
structure TileCacheInstanceSerializer where
  slice : ℕ
  background_color : Option ColorF
  tiles : List (TileOffset × TileSerializer)
deriving DecidableEq, Repr

/-- One snapshot (struct Slice): a transform plus a tile-cache state. -/
structure Slice where
  transform : Transform3D
  tile_cache : TileCacheInstanceSerializer
deriving DecidableEq, Repr

/-- static CSS_NO_TEXTURE. -/
def CSS_NO_TEXTURE : String := "fill:#c04040;fill-opacity:0.1;"
/-- static CSS_NO_SURFACE. -/
def CSS_NO_SURFACE : String := "fill:#40c040;fill-opacity:0.1;"
/-- static CSS_PRIM_COUNT. -/
def CSS_PRIM_COUNT : String := "fill:#40f0f0;fill-opacity:0.1;"
/-- static CSS_CONTENT. -/
def CSS_CONTENT : String := "fill:#f04040;fill-opacity:0.1;"
/-- static CSS_COMPOSITOR_KIND_CHANGED. -/
def CSS_COMPOSITOR_KIND_CHANGED : String := "fill:#f0c070;fill-opacity:0.1;"
/-- static CSS_VALID_RECT_CHANGED. -/
def CSS_VALID_RECT_CHANGED : String := "fill:#ff00ff;fill-opacity:0.1;"
/-- static CSS_SCALE_CHANGED. -/
def CSS_SCALE_CHANGED : String := "fill:#ff80ff;fill-opacity:0.1;"
/-- Modelled from the spec: the fixed style for the fractional-offset
cause; the constant is referenced by the source but its definition is not
part of the repository source, so its value is a representative distinct
solid-fill-with-opacity rule. -/
def CSS_FRACTIONAL_OFFSET : String := "fill:#4040c0;fill-opacity:0.1;"
/-- Modelled from the spec: the fixed style for the background-color
cause; definition not part of the repository source. -/
def CSS_BACKGROUND_COLOR : String := "fill:#10c070;fill-opacity:0.1;"
/-- Modelled from the spec: the fixed style for the surface-opacity
cause; definition not part of the repository source. -/
def CSS_SURFACE_OPACITY_CHANNEL : String := "fill:#c040c0;fill-opacity:0.1;"

/-- The Rust numeric cast from f32 to u8 used on scaled color channels,
modelled over rationals: truncation toward zero saturated to 0..255. -/
def f32_as_u8 (q : ℚ) : ℕ :=
  if q ≤ 0 then 0 else if 255 ≤ q then 255 else ⌊q⌋.toNat

/-- The background-color-derived fill: the format call of the Some(color)
arm of the None-cause branch of tile_to_svg (an RGB fill string at fixed
0.3 opacity). -/
def rgb_fill (color : ColorF) : String :=
  "fill:rgb(" ++ toString (f32_as_u8 (color.r * 255)) ++
  "," ++ toString (f32_as_u8 (color.g * 255)) ++
  "," ++ toString (f32_as_u8 (color.b * 255)) ++
  ");fill-opacity:0.3;"

/-- The tile_fill match of tile_to_svg: the style is selected by the
cause variant alone; with no cause it is computed from the tile
background color, falling back to the slice background color, and is a
no-fill style only when both are absent. -/
def compute_tile_fill (invalidation_reason : Option InvalidationReason)
    (tile_background : Option ColorF) (slice_background : Option ColorF) : String :=
  match invalidation_reason with
  | some (.FractionalOffset _ _) => CSS_FRACTIONAL_OFFSET
  | some (.BackgroundColor _ _) => CSS_BACKGROUND_COLOR
  | some (.SurfaceOpacityChanged _) => CSS_SURFACE_OPACITY_CHANNEL
  | some .NoTexture => CSS_NO_TEXTURE
  | some .NoSurface => CSS_NO_SURFACE
  | some (.PrimCount _ _) => CSS_PRIM_COUNT
  | some .CompositorKindChanged => CSS_COMPOSITOR_KIND_CHANGED
  | some (.Content _ _) => CSS_CONTENT
  | some .ValidRectChanged => CSS_VALID_RECT_CHANGED
  | some .ScaleChanged => CSS_SCALE_CHANGED
  | none =>
      let background := tile_background
      let background := if background.isNone then slice_background else background
      match background with
      | some color => rgb_fill color
      | none => "fill:none;"

/-- The fill style of one tile as tile_to_svg computes it, reading the
tile's cause, the tile's background color and the slice's fallback
background color. -/
def tile_fill (tile : TileSerializer) (slice : Slice) : String :=
  compute_tile_fill tile.invalidation_reason tile.background_color
    slice.tile_cache.background_color

/-- Lookup of an identifier in the ItemUid to display-string map with
empty-string fallback (itemuid_to_string.get(i).unwrap_or(String::new())
in the source), the map being modelled as an association list. -/
def itemuid_resolve (itemuid_to_string : List (ItemUid × String)) (i : ItemUid) : String :=
  match List.lookup i itemuid_to_string with
  | some s => s
  | none => ""

/-- Debug rendering of a point payload, modelling the derived Rust Debug
output for the fractional-offset payload type. -/
def point_debug (p : PointQ) : String :=
  "PointKey \x7b x: " ++ fmtQ p.x ++ ", y: " ++ fmtQ p.y ++ " \x7d"

/-- Debug rendering of a color, modelling the derived Rust Debug output
of ColorF. -/
def color_debug (c : ColorF) : String :=
  "ColorF \x7b r: " ++ fmtQ c.r ++ ", g: " ++ fmtQ c.g ++
  ", b: " ++ fmtQ c.b ++ ", a: " ++ fmtQ c.a ++ " \x7d"

/-- Debug rendering of an optional color. -/
def option_color_debug : Option ColorF → String
  | none => "None"
  | some c => "Some(" ++ color_debug c ++ ")"

/-- Debug rendering of an ItemUid. -/
def itemuid_debug (i : ItemUid) : String := "ItemUid(" ++ toString i.uid ++ ")"

/-- Debug rendering of a list of ItemUids. -/
def itemuid_list_debug (l : List ItemUid) : String :=
  "[" ++ String.intercalate ", " (l.map itemuid_debug) ++ "]"

/-- Debug rendering of an optional list of ItemUids. -/
def option_itemuid_list_debug : Option (List ItemUid) → String
  | none => "None"
  | some l => "Some(" ++ itemuid_list_debug l ++ ")"

/-- Debug rendering of a box, modelling the euclid Box2D Debug output. -/
def box_debug (b : Box2Q) : String :=
  "Box2D((" ++ fmtQ b.min.x ++ ", " ++ fmtQ b.min.y ++ "), (" ++
  fmtQ b.max.x ++ ", " ++ fmtQ b.max.y ++ "))"

/-- Debug rendering of a primitive descriptor record (the Desc dump in
the identifier-changed arm). -/
def descriptor_debug (d : PrimitiveDescriptor) : String :=
  "PrimitiveDescriptor \x7b prim_uid: " ++ itemuid_debug d.prim_uid ++
  ", prim_clip_box: " ++ box_debug d.prim_clip_box ++ " \x7d"

/-- Debug rendering of a clip-compare result. -/
def compare_helper_debug : CompareHelperResult → String
  | .Equal => "Equal"
  | .Count prev_count curr_count =>
      "Count \x7b prev_count: " ++ toString prev_count ++
      ", curr_count: " ++ toString curr_count ++ " \x7d"
  | .NotEqual prev curr =>
      "NotEqual \x7b prev: " ++ itemuid_debug prev ++
      ", curr: " ++ itemuid_debug curr ++ " \x7d"

/-- Debug rendering of a content-change detail. -/
def detail_debug : PrimitiveCompareResultDetail → String
  | .Equal => "Equal"
  | .Descriptor old new =>
      "Descriptor \x7b old: " ++ descriptor_debug old ++
      ", new: " ++ descriptor_debug new ++ " \x7d"
  | .Clip detail => "Clip \x7b detail: " ++ compare_helper_debug detail ++ " \x7d"

/-- Debug rendering of an optional content-change detail. -/
def option_detail_debug : Option PrimitiveCompareResultDetail → String
  | none => "None"
  | some d => "Some(" ++ detail_debug d ++ ")"

/-- Debug rendering of the discarded coarse comparison result. -/
def prim_compare_result_debug : PrimCompareResult → String
  | .Equal => "Equal"
  | .NotEqual => "NotEqual"

/-- Debug rendering of an invalidation cause, modelling the derived Rust
Debug output used in the fallback report arms and the tooltip title. -/
def reason_debug : InvalidationReason → String
  | .FractionalOffset old new =>
      "FractionalOffset \x7b old: " ++ point_debug old ++
      ", new: " ++ point_debug new ++ " \x7d"
  | .BackgroundColor old new =>
      "BackgroundColor \x7b old: " ++ option_color_debug old ++
      ", new: " ++ option_color_debug new ++ " \x7d"
  | .SurfaceOpacityChanged became_opaque =>
      "SurfaceOpacityChanged \x7b became_opaque: " ++ toString became_opaque ++ " \x7d"
  | .NoTexture => "NoTexture"
  | .NoSurface => "NoSurface"
  | .PrimCount old new =>
      "PrimCount \x7b old: " ++ option_itemuid_list_debug old ++
      ", new: " ++ option_itemuid_list_debug new ++ " \x7d"
  | .CompositorKindChanged => "CompositorKindChanged"
  | .Content r d =>
      "Content \x7b prim_compare_result: " ++ prim_compare_result_debug r ++
      ", prim_compare_result_detail: " ++ option_detail_debug d ++ " \x7d"
  | .ValidRectChanged => "ValidRectChanged"
  | .ScaleChanged => "ScaleChanged"

/-- Debug rendering of the optional invalidation cause, as formatted into
the tooltip title. -/
def option_reason_debug : Option InvalidationReason → String
  | none => "None"
  | some r => "Some(" ++ reason_debug r ++ ")"

/-- One bulleted identifier line of the primitive-count report: the uid
integer followed by the resolved display string. -/
def uid_li (itemuid_to_string : List (ItemUid × String)) (i : ItemUid) : String :=
  "<li>" ++ toString i.get_uid ++ "..." ++
  itemuid_resolve itemuid_to_string i ++ "</li>\n"

/-- The PrimCount arm of the report (after the two unwraps): lists are
diffed by filtering on membership in the other list, results are rendered
in originating-list order, and the list lengths are rendered as counts. -/
def prim_count_report (old : List ItemUid) (new : List ItemUid)
    (itemuid_to_string : List (ItemUid × String)) : String :=
  let removed := (old.filter (fun i => !(new.contains i))).foldl
    (fun acc i => acc ++ uid_li itemuid_to_string i) ""
  let added := (new.filter (fun i => !(old.contains i))).foldl
    (fun acc i => acc ++ uid_li itemuid_to_string i) ""
  "<b>PrimCount</b> changed from " ++ toString old.length ++
  " to " ++ toString new.length ++ ":<br/>removed:<ul>" ++ removed ++
  "</ul>\n                              added:<ul>" ++ added ++ "</ul>"

/-- The header of the changed-in-place descriptor report. -/
def descriptor_inplace_header (old : PrimitiveDescriptor) : String :=
  "<b>Content: Descriptor</b> changed for uid " ++
  toString old.prim_uid.get_uid ++ "<br/>"

/-- The clip-box sub-field line of the changed-in-place descriptor
report, emitted only when the clip boxes differ. -/
def clip_change_li (old : PrimitiveDescriptor) (new : PrimitiveDescriptor) : String :=
  "<li><b>prim_clip_rect</b> changed from " ++
  fmtQ old.prim_clip_box.min.x ++ "," ++ fmtQ old.prim_clip_box.min.y ++
  " -> " ++ fmtQ old.prim_clip_box.max.x ++ "," ++ fmtQ old.prim_clip_box.max.y ++
  " to " ++
  fmtQ new.prim_clip_box.min.x ++ "," ++ fmtQ new.prim_clip_box.min.y ++
  " -> " ++ fmtQ new.prim_clip_box.max.x ++ "," ++ fmtQ new.prim_clip_box.max.y ++
  "</li>"

/-- The full dump of one descriptor record with its resolved display
string, used by the identifier-changed arm (label is "old" or "new"). -/
def descriptor_full_dump (label : String) (d : PrimitiveDescriptor)
    (itemuid_to_string : List (ItemUid × String)) : String :=
  label ++ ":<ul><li>Desc: " ++ descriptor_debug d ++ "</li><li>Item: " ++
  itemuid_resolve itemuid_to_string d.prim_uid ++ "</li></ul>"

/-- The Content arm of the report: the descriptor detail renders either a
changed-in-place entry (same primitive identifier, only differing
sub-fields shown) or both full records (identifier changed); the clip
detail renders counts or the substituted identifiers; anything else is a
generic structured dump. -/
def content_change_report (prim_compare_result_detail : Option PrimitiveCompareResultDetail)
    (itemuid_to_string : List (ItemUid × String)) : String :=
  match prim_compare_result_detail with
  | some (.Descriptor old new) =>
      if old.prim_uid = new.prim_uid then
        descriptor_inplace_header old ++
        (let changes := if old.prim_clip_box ≠ new.prim_clip_box
                        then clip_change_li old new else ""
         "<ul>" ++ changes ++ "<li>Item: " ++
         itemuid_resolve itemuid_to_string old.prim_uid ++ "</li></ul>")
      else
        "<b>Content: Descriptor</b> changed; old uid " ++
        toString old.prim_uid.get_uid ++ ", new uid " ++
        toString new.prim_uid.get_uid ++ ":<br/>" ++
        descriptor_full_dump "old" old itemuid_to_string ++
        descriptor_full_dump "new" new itemuid_to_string
  | some (.Clip detail) =>
      match detail with
      | .Count prev_count curr_count =>
          "<b>Content: Clip</b> count changed from " ++ toString prev_count ++
          " to " ++ toString curr_count ++ "<br/>"
      | .NotEqual prev curr =>
          "<b>Content: Clip</b> ItemUids changed from " ++ toString prev.get_uid ++
          " to " ++ toString curr.get_uid ++ ":<br/>" ++
          "old:<ul><li>" ++ itemuid_resolve itemuid_to_string prev ++ "</li></ul>" ++
          "new:<ul><li>" ++ itemuid_resolve itemuid_to_string curr ++ "</li></ul>"
      | other => compare_helper_debug other
  | other => option_detail_debug other

/-- The per-cause body of the invalidation report (the match on reason
inside tile_to_svg).  The PrimCount arm unwraps the two optional lists,
so an absent list is a panic, modelled by the none result; every other
arm is total. -/
def reason_report_body (reason : InvalidationReason)
    (itemuid_to_string : List (ItemUid × String)) : Option String :=
  match reason with
  | .FractionalOffset old new =>
      some ("<b>FractionalOffset</b> changed from (" ++ fmtQ old.x ++ "," ++
            fmtQ old.y ++ ") to (" ++ fmtQ new.x ++ "," ++ fmtQ new.y ++ ")")
  | .BackgroundColor old new =>
      let to_str : Option ColorF → String := fun c =>
        match c with
        | some c => "(" ++ fmtQ c.r ++ "," ++ fmtQ c.g ++ "," ++
                    fmtQ c.b ++ "," ++ fmtQ c.a ++ ")"
        | none => "none"
      some ("<b>BackGroundColor</b> changed from " ++ to_str old ++
            " to " ++ to_str new)
  | .SurfaceOpacityChanged became_opaque =>
      some ("<b>SurfaceOpacityChanged</b> changed from " ++
            toString (! became_opaque) ++ " to " ++ toString became_opaque)
  | .PrimCount oldOpt newOpt =>
      match oldOpt, newOpt with
      | some old, some new => some (prim_count_report old new itemuid_to_string)
      | _, _ => none
  | .Content _ prim_compare_result_detail =>
      some (content_change_report prim_compare_result_detail itemuid_to_string)
  | other => some (reason_debug other)

/-- The tooltip title of a tile's hit-test rectangle: present exactly
when the tile has an invalidation cause, formatted as
slice S tile (x,y) - cause (the title match in tile_to_svg). -/
def tile_title (key : TileOffset) (tile : TileSerializer) (slice : Slice) : String :=
  match tile.invalidation_reason with
  | some _ =>
      "<title>slice " ++ toString slice.tile_cache.slice ++
      " tile (" ++ toString key.x ++ "," ++ toString key.y ++ ") - " ++
      option_reason_debug tile.invalidation_reason ++ "</title>"
  | none => ""

/-- The subheader line that opens one tile's invalidation-report entry. -/
def report_subheader (key : TileOffset) (slice : Slice) : String :=
  "<div class=\"subheader\">slice " ++ toString slice.tile_cache.slice ++
  " key (" ++ toString key.x ++ "," ++ toString key.y ++ ")</div><div class=\"data\">"

/-- The filled rectangle fragment of one tile (the first svg += format
call after the report block in tile_to_svg). -/
def filled_rect_fragment (tile : TileSerializer) (tile_style : String)
    (svg_settings : SvgSettings) : String :=
  "<rect x=\"" ++ fmtQ (tile.rect.origin.x * svg_settings.scale + svg_settings.x) ++
  "\" y=\"" ++ fmtQ (tile.rect.origin.y * svg_settings.scale + svg_settings.y) ++
  "\" width=\"" ++ fmtQ (tile.rect.size.width * svg_settings.scale) ++
  "\" height=\"" ++ fmtQ (tile.rect.size.height * svg_settings.scale) ++
  "\" style=\"" ++ tile_style ++ "\" ></rect>"

/-- The nearly invisible hit-test rectangle fragment of one tile,
carrying the tooltip title (the second svg += format call). -/
def hit_test_rect_fragment (tile : TileSerializer) (tile_stroke : String)
    (title : String) (svg_settings : SvgSettings) : String :=
  "<rect x=\"" ++ fmtQ (tile.rect.origin.x * svg_settings.scale + svg_settings.x) ++
  "\" y=\"" ++ fmtQ (tile.rect.origin.y * svg_settings.scale + svg_settings.y) ++
  "\" width=\"" ++ fmtQ (tile.rect.size.width * svg_settings.scale) ++
  "\" height=\"" ++ fmtQ (tile.rect.size.height * svg_settings.scale) ++
  "\" style=\"fill-opacity:0.001;" ++ tile_stroke ++ "\" >" ++ title ++ "</rect>"

/-- fn tile_to_svg.  Returns the tile's SVG fragment pair together with
the invalidation report after this tile's contribution (the report is a
mutable accumulator in the source, modelled by explicit state passing);
none models the panic of the PrimCount unwraps.  The prev_tile parameter
is accepted, as in the source signature, but never read. -/
def tile_to_svg (key : TileOffset) (tile : TileSerializer) (slice : Slice)
    (prev_tile : Option TileSerializer)
    (itemuid_to_string : List (ItemUid × String))
    (tile_stroke : String) (prim_class : String)
    (invalidation_report : String)
    (svg_settings : SvgSettings) : Option (String × String) :=
  let svg := "\n<!-- tile key " ++ toString key.x ++ "," ++ toString key.y ++ " ; -->\n"
  let tile_style := tile_fill tile slice ++ "stroke:none;"
  let title := tile_title key tile slice
  let report? : Option String :=
    match tile.invalidation_reason with
    | some reason =>
        match reason_report_body reason itemuid_to_string with
        | some body =>
            some (invalidation_report ++ report_subheader key slice ++
                  body ++ "</div>\n")
        | none => none
    | none => some invalidation_report
  match report? with
  | none => none
  | some report =>
      let svg := svg ++ filled_rect_fragment tile tile_style svg_settings
      let svg := svg ++ hit_test_rect_fragment tile tile_stroke title svg_settings
      some (svg, report)

/-- The linear scan of prev_slices inside slices_to_svg: the first
element whose slice index equals the current slice's index, if any. -/
def find_prev_slice_scan (prev : List Slice) (slice_index : ℕ) : Option Slice :=
  match prev with
  | [] => none
  | prev_search :: rest =>
      if prev_search.tile_cache.slice = slice_index then some prev_search
      else find_prev_slice_scan rest slice_index

/-- The per-slice loop over the tile map inside slices_to_svg, threading
the svg and report accumulators; a panic in any tile propagates. -/
def tiles_to_svg_fold (slice : Slice) (prev_slice : Option Slice)
    (itemuid_to_string : List (ItemUid × String))
    (tile_stroke : String) (prim_class : String) (svg_settings : SvgSettings)
    (tiles : List (TileOffset × TileSerializer))
    (svg : String) (invalidation_report : String) : Option (String × String) :=
  match tiles with
  | [] => some (svg, invalidation_report)
  | (key, tile) :: rest =>
      let prev_tile : Option TileSerializer :=
        match prev_slice with
        | some prev => List.lookup key prev.tile_cache.tiles
        | none => none
      match tile_to_svg key tile slice prev_tile itemuid_to_string
              tile_stroke prim_class invalidation_report svg_settings with
      | none => none
      | some (tsvg, report) =>
          tiles_to_svg_fold slice prev_slice itemuid_to_string tile_stroke
            prim_class svg_settings rest (svg ++ tsvg) report

/-- The outer loop of slices_to_svg over the slices in input order:
tracks the maximum slice index, opens the per-slice report div and svg
group, locates the predecessor slice by the linear scan, folds over the
tiles, and closes the group and div. -/
def slices_fold (prev_slices : Option (List Slice))
    (itemuid_to_string : List (ItemUid × String)) (svg_settings : SvgSettings)
    (slices : List Slice) (svg : String) (invalidation_report : String)
    (max_slice_index : ℕ) : Option (String × String × ℕ) :=
  match slices with
  | [] => some (svg, invalidation_report, max_slice_index)
  | slice :: rest =>
      let tile_cache := slice.tile_cache
      let max_slice_index :=
        if max_slice_index < tile_cache.slice then tile_cache.slice else max_slice_index
      let invalidation_report := invalidation_report ++
        "<div id=\"invalidation_slice" ++ toString tile_cache.slice ++ "\">\n"
      let prim_class := "tile_slice" ++ toString tile_cache.slice
      let svg := svg ++ "\n<g id=\"tile_slice" ++ toString tile_cache.slice ++
        "_everything\">"
      let svg := svg ++ "\n<!-- tile_cache slice " ++ toString tile_cache.slice ++
        " -->\n"
      let tile_stroke := "stroke:none;"
      let prev_slice : Option Slice :=
        match prev_slices with
        | some prev => find_prev_slice_scan prev tile_cache.slice
        | none => none
      match tiles_to_svg_fold slice prev_slice itemuid_to_string tile_stroke
              prim_class svg_settings tile_cache.tiles svg invalidation_report with
      | none => none
      | some (svg, invalidation_report) =>
          slices_fold prev_slices itemuid_to_string svg_settings rest
            (svg ++ "\n</g>") (invalidation_report ++ "</div>\n") max_slice_index

/-- fn slices_to_svg: assembles the SVG document (stylesheet processing
instructions, document element, full-bleed black background, all slice
groups) and the invalidation report, returning also the tracked maximum
slice index; none models a panic bubbling up from a tile. -/
def slices_to_svg (slices : List Slice) (prev_slices : Option (List Slice))
    (itemuid_to_string : List (ItemUid × String))
    (svg_width : ℤ) (svg_height : ℤ) (max_slice_index : ℕ)
    (svg_settings : SvgSettings) : Option (String × String × ℕ) :=
  let svg_begin := "<?xml-stylesheet type=\"text/css\" href=\"tilecache_base.css\" ?>\n" ++
    "<?xml-stylesheet type=\"text/css\" href=\"tilecache.css\" ?>\n"
  match slices_fold prev_slices itemuid_to_string svg_settings slices ""
          "<div class=\"header\">Invalidation</div>\n" max_slice_index with
  | none => none
  | some (svg, invalidation_report, max_slice_index) =>
      some (svg_begin ++
            "<svg version=\"1.1\" baseProfile=\"full\" xmlns=\"http://www.w3.org/2000/svg\" width=\"" ++
            toString svg_width ++ "\" height=\"" ++ toString svg_height ++ "\" >" ++
            "\n" ++ "<rect fill=\"black\" width=\"100%\" height=\"100%\"/>\n" ++
            svg ++ "\n</svg>\n",
            invalidation_report, max_slice_index)

/-- One insertion entry of an interning update batch: an identifier plus
the debug-formatted value.  The value type is generic per interner
category in the source; its Debug rendering is modelled as the stored
string. -/
structure Insertion where
  uid : ItemUid
  value_debug : String
deriving DecidableEq, Repr

/-- One removal entry of an interning update batch: an identifier. -/
structure Removal where
  uid : ItemUid
deriving DecidableEq, Repr

/-- One time-ordered interning update batch (insertions then removals),
as iterated by updatelist_to_html. -/
structure UpdateList where
  insertions : List Insertion
  removals : List Removal
deriving DecidableEq, Repr

/-- One insertion line of the interning report. -/
def insert_line (insertion : Insertion) : String :=
  "<div class=\"insert\"><b>" ++ toString insertion.uid.get_uid ++ "</b> (" ++
  insertion.value_debug ++ ")</div>\n"

/-- One removal line of the interning report. -/
def remove_line (removal : Removal) : String :=
  "<div class=\"remove\"><b>" ++ toString removal.uid.get_uid ++ "</b></div>\n"

/-- The fixed HTML document head emitted by updatelist_to_html, with its
two stylesheet links. -/
def HTML_HEAD : String :=
  "<!DOCTYPE html>\n<html> <head> <meta charset=\"UTF-8\">\n" ++
  "<link rel=\"stylesheet\" type=\"text/css\" href=\"tilecache_base.css\"></link>\n" ++
  "<link rel=\"stylesheet\" type=\"text/css\" href=\"tilecache.css\"></link>\n" ++
  "</head> <body>\n<div class=\"datasheet\">\n"

/-- fn updatelist_to_html.  The source generates this function through
the external enumerate_interners macro over a fixed set of interner
categories; modelled from the spec as generic over an ordered sequence of
(category name, update lists) pairs.  For each category in order it emits
a subheading and then, batch by batch, every insertion line followed by
every removal line; the supplied invalidation report is prepended and
everything is wrapped in the fixed document shell. -/
def updatelist_to_html (update_lists : List (String × List UpdateList))
    (invalidation_report : String) : String :=
  let html := HTML_HEAD
  let html := html ++ invalidation_report
  let html := html ++ "<div class=\"header\">Interning</div>\n"
  let html := update_lists.foldl (fun html category =>
    let html := html ++ "<div class=\"subheader\">" ++ category.1 ++
      "</div>\n<div class=\"intern data\">\n"
    let html := category.2.foldl (fun html list =>
      let html := list.insertions.foldl
        (fun html insertion => html ++ insert_line insertion) html
      list.removals.foldl (fun html removal => html ++ remove_line removal) html) html
    html ++ "</div><br/>\n") html
  html ++ "</div> </body> </html>\n"

/-- Concatenation of a list of strings in order. -/
def str_concat (l : List String) : String := l.foldr (fun a b => a ++ b) ""

theorem str_concat_nil : str_concat [] = "" := rfl

theorem str_concat_cons (x : String) (l : List String) :
    str_concat (x :: l) = x ++ str_concat l := rfl

/-- A left fold that appends a rendering of each element is the
accumulator followed by the concatenation of the renderings in order. -/
theorem foldl_append_eq_concat {α : Type} (f : String → α → String) (g : α → String)
    (hf : ∀ h x, f h x = h ++ g x) :
    ∀ (l : List α) (acc : String), l.foldl f acc = acc ++ str_concat (l.map g)
  | [], acc => by simp [str_concat_nil, String.append_empty]
  | x :: l, acc => by
      rw [List.foldl_cons, foldl_append_eq_concat f g hf l (f acc x), hf]
      rw [List.map_cons, str_concat_cons, String.append_assoc]

/-- The children fold of the flattener equals the monadic map of the
flattener over the children, concatenated after the accumulator; the
none (panic) result propagates from any child. -/
theorem tile_node_children_fold_eq (transform : Transform3D)
    (svg_settings : SvgSettings) :
    ∀ (children : List TileNode) (acc : String),
      tile_node_children_fold children transform svg_settings acc =
        (children.mapM (fun c => tile_node_to_svg c transform svg_settings)).map
          (fun l => acc ++ str_concat l)
  | [], acc => by
      rw [List.mapM_nil]
      simp [tile_node_children_fold, str_concat_nil, String.append_empty]
  | child :: rest, acc => by
      rw [List.mapM_cons]
      cases hc : tile_node_to_svg child transform svg_settings with
      | none => simp only [tile_node_children_fold, hc]; rfl
      | some s =>
          simp only [tile_node_children_fold, hc]
          rw [tile_node_children_fold_eq transform svg_settings rest (acc ++ s)]
          cases hr : rest.mapM (fun c => tile_node_to_svg c transform svg_settings) with
          | none => simp [hr]
          | some l => simp [hr, str_concat_cons, String.append_assoc]

mutual

/-- If every leaf rectangle of a tree projects to a finite rectangle,
flattening the tree does not panic. -/
theorem tile_node_to_svg_isSome_of (transform : Transform3D) (svg_settings : SvgSettings) :
    ∀ (node : TileNode),
      (∀ r ∈ node.leafRects, (outer_transformed_rect transform r.to_rect).isSome = true) →
      (tile_node_to_svg node transform svg_settings).isSome = true
  | .Leaf rect, h => by
      have hr := h rect (by simp [TileNode.leafRects])
      simp only [tile_node_to_svg]
      cases hc : outer_transformed_rect transform rect.to_rect with
      | none => rw [hc] at hr; simp at hr
      | some rw => simp
  | .Node rect children, h => by
      simp only [tile_node_to_svg]
      exact tile_node_children_fold_isSome_of transform svg_settings children ""
        (by simpa [TileNode.leafRects] using h)

/-- If every leaf rectangle in a list of trees projects to a finite
rectangle, the children fold does not panic. -/
theorem tile_node_children_fold_isSome_of (transform : Transform3D)
    (svg_settings : SvgSettings) :
    ∀ (children : List TileNode) (acc : String),
      (∀ r ∈ leafRectsList children,
        (outer_transformed_rect transform r.to_rect).isSome = true) →
      (tile_node_children_fold children transform svg_settings acc).isSome = true
  | [], acc, _ => by simp [tile_node_children_fold]
  | child :: rest, acc, h => by
      have hc := tile_node_to_svg_isSome_of transform svg_settings child
        (fun r hr => h r (by simp [leafRectsList]; exact Or.inl hr))
      cases hcv : tile_node_to_svg child transform svg_settings with
      | none => rw [hcv] at hc; simp at hc
      | some s =>
          simp only [tile_node_children_fold, hcv]
          exact tile_node_children_fold_isSome_of transform svg_settings rest (acc ++ s)
            (fun r hr => h r (by simp [leafRectsList]; exact Or.inr hr))

end

/-- C1: the code does not skip an unrenderable tile: flattening a leaf
whose transform yields no finite projected rectangle panics (the unwrap
in the Leaf arm), it does not return a result.  Concretely, with the zero
transform every point has homogeneous coordinate w = 0, no finite
projection exists, and tile_node_to_svg returns none (the panic). -/
theorem tile_node_to_svg_panics_on_unprojectable_leaf :
    tile_node_to_svg (.Leaf ⟨⟨0, 0⟩, ⟨10, 10⟩⟩)
      ⟨0, 0, 0, 0, 0, 0, 0, 0, 0⟩ ⟨1, 0, 0⟩ = none := by
  have hc : outer_transformed_rect ⟨0, 0, 0, 0, 0, 0, 0, 0, 0⟩
      (Box2Q.to_rect ⟨⟨0, 0⟩, ⟨10, 10⟩⟩) = none := by
    norm_num [outer_transformed_rect, transform_point2d, Box2Q.to_rect]
  simp [tile_node_to_svg, hc]

/-- C1 (amended): flattening returns a result, rather than failing,
whenever every leaf rectangle of the tree has a finite projected
rectangle under the transform; a leaf with no finite projection panics
instead of being skipped. -/
theorem tile_node_to_svg_total_of_finite_projections (node : TileNode)
    (transform : Transform3D) (svg_settings : SvgSettings)
    (h : ∀ r ∈ node.leafRects, (outer_transformed_rect transform r.to_rect).isSome = true) :
    (tile_node_to_svg node transform svg_settings).isSome = true :=
  tile_node_to_svg_isSome_of transform svg_settings node h

/-- C1 witness: a tree of one interior node over one leaf, under the
identity transform, flattens to a result. -/
theorem tile_node_to_svg_total_witness :
    (tile_node_to_svg (.Node ⟨⟨0, 0⟩, ⟨1, 1⟩⟩ [.Leaf ⟨⟨0, 0⟩, ⟨2, 2⟩⟩])
      ⟨1, 0, 0, 0, 1, 0, 0, 0, 1⟩ ⟨1, 0, 0⟩).isSome = true :=
  tile_node_to_svg_total_of_finite_projections _ _ _ (by
    intro r hr
    simp [TileNode.leafRects, leafRectsList] at hr
    subst hr
    norm_num [outer_transformed_rect, transform_point2d, Box2Q.to_rect])

/-- C2: the claim as stated fails for a Leaf whose rectangle has no
finite projection: flattening such a Leaf emits no fragment at all - it
panics (none) - rather than exactly one rectangle fragment.  Concretely,
a transform whose homogeneous row is zero projects every point to
infinity. -/
theorem tile_node_to_svg_leaf_no_fragment_on_panic :
    tile_node_to_svg (.Leaf ⟨⟨1, 1⟩, ⟨3, 4⟩⟩)
      ⟨1, 0, 0, 0, 1, 0, 0, 0, 0⟩ ⟨1, 0, 0⟩ = none := by
  have hc : outer_transformed_rect ⟨1, 0, 0, 0, 1, 0, 0, 0, 0⟩
      (Box2Q.to_rect ⟨⟨1, 1⟩, ⟨3, 4⟩⟩) = none := by
    norm_num [outer_transformed_rect, transform_point2d, Box2Q.to_rect]
  simp [tile_node_to_svg, hc]

/-- C2 (amended): whenever the projection succeeds, flattening a Leaf
emits exactly the one rectangle fragment of its projected rectangle (a
Leaf whose projection fails panics instead); flattening an Interior node
emits, in child order, the concatenation of the children's flattened
outputs (propagating any child's panic); an Interior node with an empty
child sequence produces empty output. -/
theorem tile_node_to_svg_shape (transform : Transform3D) (svg_settings : SvgSettings) :
    (∀ rect rect_world,
      outer_transformed_rect transform rect.to_rect = some rect_world →
      tile_node_to_svg (.Leaf rect) transform svg_settings =
        some (leaf_rect_svg rect_world svg_settings))
    ∧ (∀ rect children,
      tile_node_to_svg (.Node rect children) transform svg_settings =
        (children.mapM (fun c => tile_node_to_svg c transform svg_settings)).map
          str_concat)
    ∧ (∀ rect, tile_node_to_svg (.Node rect []) transform svg_settings = some "") := by
  refine ⟨?_, ?_, ?_⟩
  · intro rect rect_world h
    simp [tile_node_to_svg, h]
  · intro rect children
    rw [tile_node_to_svg, tile_node_children_fold_eq]
    cases children.mapM (fun c => tile_node_to_svg c transform svg_settings) with
    | none => rfl
    | some l => simp [String.empty_append]
  · intro rect
    rw [tile_node_to_svg, tile_node_children_fold]

/-- C2 witness: under the identity transform a concrete Leaf flattens to
exactly its one projected rectangle fragment. -/
theorem tile_node_to_svg_shape_witness :
    tile_node_to_svg (.Leaf ⟨⟨0, 0⟩, ⟨2, 2⟩⟩)
      ⟨1, 0, 0, 0, 1, 0, 0, 0, 1⟩ ⟨1, 0, 0⟩ =
      some (leaf_rect_svg ⟨⟨0, 0⟩, ⟨2, 2⟩⟩ ⟨1, 0, 0⟩) :=
  (tile_node_to_svg_shape ⟨1, 0, 0, 0, 1, 0, 0, 0, 1⟩ ⟨1, 0, 0⟩).1
    ⟨⟨0, 0⟩, ⟨2, 2⟩⟩ ⟨⟨0, 0⟩, ⟨2, 2⟩⟩ (by
      norm_num [outer_transformed_rect, transform_point2d, Box2Q.to_rect])

/-- A background-color-derived fill string is never the no-fill style:
it is strictly longer than "fill:none;". -/
theorem rgb_fill_ne_no_fill (color : ColorF) : rgb_fill color ≠ "fill:none;" := by
  intro h
  have hl := congrArg String.length h
  rw [rgb_fill] at hl
  simp only [String.length_append] at hl
  have h9 : ("fill:rgb(" : String).length = 9 := rfl
  have h1 : ("," : String).length = 1 := rfl
  have h19 : (");fill-opacity:0.3;" : String).length = 19 := rfl
  have h10 : ("fill:none;" : String).length = 10 := rfl
  rw [h9, h1, h19, h10] at hl
  omega

/-- C3: for a tile whose invalidation cause is none, the fill style comes
from the tile's own background color if present, else from the slice's
background color, else is the no-fill style; every present color yields
its RGB fill string at fixed 0.3 opacity, which is never the no-fill
style. -/
theorem tile_fill_none_cause_selection (tile : TileSerializer) (slice : Slice)
    (hreason : tile.invalidation_reason = none) :
    (∀ c, tile.background_color = some c → tile_fill tile slice = rgb_fill c)
    ∧ (∀ c, tile.background_color = none →
        slice.tile_cache.background_color = some c →
        tile_fill tile slice = rgb_fill c)
    ∧ (tile.background_color = none → slice.tile_cache.background_color = none →
        tile_fill tile slice = "fill:none;")
    ∧ (∀ c, rgb_fill c ≠ "fill:none;") := by
  refine ⟨?_, ?_, ?_, rgb_fill_ne_no_fill⟩
  · intro c hc
    simp [tile_fill, compute_tile_fill, hreason, hc]
  · intro c hc hs
    simp [tile_fill, compute_tile_fill, hreason, hc, hs]
  · intro hc hs
    simp [tile_fill, compute_tile_fill, hreason, hc, hs]

/-- C3 witness: a tile with no cause and a red background color gets the
red-derived fill style, which is not the no-fill style. -/
theorem tile_fill_none_cause_selection_witness :
    tile_fill ⟨⟨⟨0, 0⟩, ⟨1, 1⟩⟩, none, some ⟨1, 0, 0, 1⟩⟩
        ⟨⟨1, 0, 0, 0, 1, 0, 0, 0, 1⟩, ⟨0, none, []⟩⟩ =
      rgb_fill ⟨1, 0, 0, 1⟩
    ∧ rgb_fill ⟨1, 0, 0, 1⟩ ≠ "fill:none;" :=
  ⟨(tile_fill_none_cause_selection _ _ rfl).1 _ rfl,
   (tile_fill_none_cause_selection ⟨⟨⟨0, 0⟩, ⟨1, 1⟩⟩, none, some ⟨1, 0, 0, 1⟩⟩
     ⟨⟨1, 0, 0, 0, 1, 0, 0, 0, 1⟩, ⟨0, none, []⟩⟩ rfl).2.2.2 _⟩

/-- The set difference over ordered identifier lists, with membership
decided by identifier equality and the order of the first list kept. -/
def list_minus (a : List ItemUid) (b : List ItemUid) : List ItemUid :=
  a.filter (fun i => i ∉ b)

/-- The bulleted rendering of a list of identifiers, each resolved
through the display mapping. -/
def uid_bullets (itemuid_to_string : List (ItemUid × String))
    (l : List ItemUid) : String :=
  str_concat (l.map (uid_li itemuid_to_string))

/-- C4: the primitive-count report renders removed = old minus new and
added = new minus old (membership by identifier equality), each result a
sublist of - hence ordered like - its originating list, each identifier
line resolved through the display mapping, with the two list lengths
rendered as counts; on old=[A,B,C], new=[B,C,D] the differences are
removed=[A] and added=[D]. -/
theorem prim_count_report_diff (old : List ItemUid) (new : List ItemUid)
    (itemuid_to_string : List (ItemUid × String)) :
    prim_count_report old new itemuid_to_string =
      "<b>PrimCount</b> changed from " ++ toString old.length ++
      " to " ++ toString new.length ++ ":<br/>removed:<ul>" ++
      uid_bullets itemuid_to_string (list_minus old new) ++
      "</ul>\n                              added:<ul>" ++
      uid_bullets itemuid_to_string (list_minus new old) ++ "</ul>"
    ∧ (list_minus old new).Sublist old
    ∧ (list_minus new old).Sublist new
    ∧ (∀ i, i ∈ list_minus old new ↔ i ∈ old ∧ i ∉ new)
    ∧ (∀ i, i ∈ list_minus new old ↔ i ∈ new ∧ i ∉ old)
    ∧ list_minus [⟨1⟩, ⟨2⟩, ⟨3⟩] [⟨2⟩, ⟨3⟩, ⟨4⟩] = [⟨1⟩]
    ∧ list_minus [⟨2⟩, ⟨3⟩, ⟨4⟩] [⟨1⟩, ⟨2⟩, ⟨3⟩] = [⟨4⟩] := by
  have hfilter : ∀ (a b : List ItemUid),
      a.filter (fun i => !(b.contains i)) = list_minus a b := by
    intro a b
    simp only [list_minus]
    apply List.filter_congr
    intro i _
    simp [List.elem_eq_mem]
  have hfold : ∀ (l : List ItemUid),
      l.foldl (fun acc i => acc ++ uid_li itemuid_to_string i) "" =
        uid_bullets itemuid_to_string l := by
    intro l
    rw [uid_bullets,
      foldl_append_eq_concat _ (uid_li itemuid_to_string) (fun _ _ => rfl) l ""]
    exact String.empty_append _
  refine ⟨?_, List.filter_sublist _, List.filter_sublist _, ?_, ?_, by decide, by decide⟩
  · rw [prim_count_report, hfilter old new, hfilter new old, hfold, hfold]
  · intro i
    simp [list_minus, List.mem_filter]
  · intro i
    simp [list_minus, List.mem_filter]

/-- When a tile has a cause whose report body renders (no panic), the
tile's report contribution is exactly the subheader plus the body,
appended to the incoming report. -/
theorem tile_to_svg_report_of_cause (key : TileOffset) (tile : TileSerializer)
    (slice : Slice) (prev_tile : Option TileSerializer)
    (itemuid_to_string : List (ItemUid × String))
    (tile_stroke : String) (prim_class : String) (invalidation_report : String)
    (svg_settings : SvgSettings) (r : InvalidationReason) (body : String)
    (hr : tile.invalidation_reason = some r)
    (hb : reason_report_body r itemuid_to_string = some body) :
    (tile_to_svg key tile slice prev_tile itemuid_to_string tile_stroke
        prim_class invalidation_report svg_settings).map Prod.snd =
      some (invalidation_report ++ report_subheader key slice ++ body ++ "</div>\n") := by
  simp [tile_to_svg, hr, hb]

/-- The tooltip title of a tile that has an invalidation cause is not
empty. -/
theorem tile_title_ne_empty (key : TileOffset) (tile : TileSerializer)
    (slice : Slice) (r : InvalidationReason)
    (hr : tile.invalidation_reason = some r) : tile_title key tile slice ≠ "" := by
  intro h
  have hl := congrArg String.length h
  simp only [tile_title, hr, String.length_append] at hl
  have h13 : ("<title>slice " : String).length = 13 := rfl
  have h0 : ("" : String).length = 0 := rfl
  rw [h13, h0] at hl
  omega

/-- C5: the claim as stated is false: a tile with no predecessor but
with a recorded cause still gets a tooltip title and still produces an
invalidation-report entry.  Concretely, a NoTexture tile rendered with
prev_tile = None has a non-empty tooltip title and appends a report
entry. -/
theorem tile_no_predecessor_still_reported :
    tile_title ⟨0, 0⟩ ⟨⟨⟨0, 0⟩, ⟨1, 1⟩⟩, some .NoTexture, none⟩
        ⟨⟨1, 0, 0, 0, 1, 0, 0, 0, 1⟩, ⟨0, none, []⟩⟩ ≠ ""
    ∧ (tile_to_svg ⟨0, 0⟩ ⟨⟨⟨0, 0⟩, ⟨1, 1⟩⟩, some .NoTexture, none⟩
        ⟨⟨1, 0, 0, 0, 1, 0, 0, 0, 1⟩, ⟨0, none, []⟩⟩ none []
        "stroke:none;" "tile_slice0" "" ⟨1, 0, 0⟩).map Prod.snd ≠ some "" := by
  constructor
  · exact tile_title_ne_empty _ _ _ .NoTexture rfl
  · rw [tile_to_svg_report_of_cause _ _ _ _ _ _ _ _ _ .NoTexture "NoTexture" rfl rfl]
    decide

/-- C5 (amended): the tooltip title and the invalidation-report entry of
a tile do not depend on the predecessor tile at all (the prev_tile
argument is never read): the title is empty and the report is unchanged
exactly when the tile has no cause, and when a cause is present the
title is the populated slice/tile format string, which is non-empty,
independent of whether a predecessor exists. -/
theorem tile_title_and_report_iff_cause (key : TileOffset) (tile : TileSerializer)
    (slice : Slice) (prev1 prev2 : Option TileSerializer)
    (itemuid_to_string : List (ItemUid × String))
    (tile_stroke : String) (prim_class : String) (invalidation_report : String)
    (svg_settings : SvgSettings) :
    tile_to_svg key tile slice prev1 itemuid_to_string tile_stroke prim_class
        invalidation_report svg_settings =
      tile_to_svg key tile slice prev2 itemuid_to_string tile_stroke prim_class
        invalidation_report svg_settings
    ∧ (tile.invalidation_reason = none →
        tile_title key tile slice = ""
        ∧ (tile_to_svg key tile slice prev1 itemuid_to_string tile_stroke
            prim_class invalidation_report svg_settings).map Prod.snd =
          some invalidation_report)
    ∧ (∀ r, tile.invalidation_reason = some r →
        tile_title key tile slice =
          "<title>slice " ++ toString slice.tile_cache.slice ++
          " tile (" ++ toString key.x ++ "," ++ toString key.y ++ ") - " ++
          option_reason_debug tile.invalidation_reason ++ "</title>"
        ∧ tile_title key tile slice ≠ "") := by
  refine ⟨rfl, ?_, ?_⟩
  · intro hr
    constructor
    · simp [tile_title, hr]
    · simp [tile_to_svg, hr]
  · intro r hr
    constructor
    · simp [tile_title, hr]
    · exact tile_title_ne_empty _ _ _ r hr

/-- C5 witness: a concrete tile with no cause has an empty tooltip title
and leaves the report unchanged. -/
theorem tile_title_and_report_iff_cause_witness :
    tile_title ⟨2, 3⟩ ⟨⟨⟨0, 0⟩, ⟨1, 1⟩⟩, none, none⟩
        ⟨⟨1, 0, 0, 0, 1, 0, 0, 0, 1⟩, ⟨0, none, []⟩⟩ = ""
    ∧ (tile_to_svg ⟨2, 3⟩ ⟨⟨⟨0, 0⟩, ⟨1, 1⟩⟩, none, none⟩
        ⟨⟨1, 0, 0, 0, 1, 0, 0, 0, 1⟩, ⟨0, none, []⟩⟩ none []
        "stroke:none;" "tile_slice0" "report so far" ⟨1, 0, 0⟩).map Prod.snd =
      some "report so far" :=
  (tile_title_and_report_iff_cause ⟨2, 3⟩ ⟨⟨⟨0, 0⟩, ⟨1, 1⟩⟩, none, none⟩
    ⟨⟨1, 0, 0, 0, 1, 0, 0, 0, 1⟩, ⟨0, none, []⟩⟩ none none []
    "stroke:none;" "tile_slice0" "report so far" ⟨1, 0, 0⟩).2.1 rfl

/-- The predecessor scan returns none exactly when no element of the
previous-slices sequence has the wanted slice index. -/
theorem find_prev_slice_scan_eq_none_iff (prev : List Slice) (slice_index : ℕ) :
    find_prev_slice_scan prev slice_index = none ↔
      ∀ p ∈ prev, p.tile_cache.slice ≠ slice_index := by
  induction prev with
  | nil => simp [find_prev_slice_scan]
  | cons p ps ih =>
      by_cases h : p.tile_cache.slice = slice_index
      · simp [find_prev_slice_scan, h]
      · simp [find_prev_slice_scan, h, ih]

/-- Any slice the predecessor scan returns has the wanted slice index. -/
theorem find_prev_slice_scan_some_matches (prev : List Slice) (slice_index : ℕ) :
    ∀ s, find_prev_slice_scan prev slice_index = some s →
      s.tile_cache.slice = slice_index := by
  induction prev with
  | nil => intro s h; simp [find_prev_slice_scan] at h
  | cons p ps ih =>
      intro s h
      by_cases hp : p.tile_cache.slice = slice_index
      · rw [find_prev_slice_scan, if_pos hp] at h
        cases h
        exact hp
      · rw [find_prev_slice_scan, if_neg hp] at h
        exact ih s h

/-- The predecessor scan returns the first element with the wanted slice
index, regardless of any later duplicates. -/
theorem find_prev_slice_scan_first (slice_index : ℕ) :
    ∀ (l1 : List Slice) (s : Slice) (l2 : List Slice),
      s.tile_cache.slice = slice_index →
      (∀ p ∈ l1, p.tile_cache.slice ≠ slice_index) →
      find_prev_slice_scan (l1 ++ s :: l2) slice_index = some s
  | [], s, l2, hs, _ => by rw [List.nil_append, find_prev_slice_scan, if_pos hs]
  | p :: l1, s, l2, hs, h1 => by
      rw [List.cons_append, find_prev_slice_scan,
        if_neg (h1 p (List.mem_cons_self p l1))]
      exact find_prev_slice_scan_first slice_index l1 s l2 hs
        (fun q hq => h1 q (List.mem_cons_of_mem p hq))

/-- C6: the predecessor of a slice is found by scanning the
previous-slices sequence in order for the first element with an equal
slice index: a returned slice has the wanted index and is the first such
element (duplicate indices silently resolve to the first match), and the
scan returns none exactly when no element matches. -/
theorem find_prev_slice_scan_spec (prev : List Slice) (slice_index : ℕ) :
    (find_prev_slice_scan prev slice_index = none ↔
      ∀ p ∈ prev, p.tile_cache.slice ≠ slice_index)
    ∧ (∀ s, find_prev_slice_scan prev slice_index = some s →
        s.tile_cache.slice = slice_index)
    ∧ (∀ l1 s l2, prev = l1 ++ s :: l2 →
        s.tile_cache.slice = slice_index →
        (∀ p ∈ l1, p.tile_cache.slice ≠ slice_index) →
        find_prev_slice_scan prev slice_index = some s) :=
  ⟨find_prev_slice_scan_eq_none_iff prev slice_index,
   find_prev_slice_scan_some_matches prev slice_index,
   fun l1 s l2 hprev hs h1 => by
     rw [hprev]
     exact find_prev_slice_scan_first slice_index l1 s l2 hs h1⟩

/-- C6 witness: with two distinct slices sharing index 5, the scan
returns the first of them. -/
theorem find_prev_slice_scan_spec_witness :
    find_prev_slice_scan
      [⟨⟨1, 0, 0, 0, 1, 0, 0, 0, 1⟩, ⟨5, none, []⟩⟩,
       ⟨⟨1, 0, 0, 0, 1, 0, 0, 0, 1⟩, ⟨5, some ⟨1, 0, 0, 1⟩, []⟩⟩,
       ⟨⟨1, 0, 0, 0, 1, 0, 0, 0, 1⟩, ⟨3, none, []⟩⟩] 5 =
      some ⟨⟨1, 0, 0, 0, 1, 0, 0, 0, 1⟩, ⟨5, none, []⟩⟩ :=
  (find_prev_slice_scan_spec _ 5).2.2 []
    ⟨⟨1, 0, 0, 0, 1, 0, 0, 0, 1⟩, ⟨5, none, []⟩⟩
    [⟨⟨1, 0, 0, 0, 1, 0, 0, 0, 1⟩, ⟨5, some ⟨1, 0, 0, 1⟩, []⟩⟩,
     ⟨⟨1, 0, 0, 0, 1, 0, 0, 0, 1⟩, ⟨3, none, []⟩⟩]
    rfl rfl (by simp)

/-- Two clip boxes are equal exactly when all four scalar components are
equal. -/
theorem box_eq_iff_components (a b : Box2Q) :
    a = b ↔ (a.min.x = b.min.x ∧ a.min.y = b.min.y ∧
             a.max.x = b.max.x ∧ a.max.y = b.max.y) := by
  obtain ⟨⟨ax, ay⟩, ⟨bx, bY⟩⟩ := a
  obtain ⟨⟨cx, cy⟩, ⟨dx, dy⟩⟩ := b
  simp [Box2Q.mk.injEq, PointQ.mk.injEq, and_assoc]

/-- C7: the content-changed descriptor report branches on equality of
the primitive identifiers: with equal identifiers it renders a
changed-in-place entry containing only the differing sub-fields (no
clip-box line when the clip boxes are equal, exactly the clip-box line
when they differ, the clip boxes being compared by exact equality of all
four scalar components); with different identifiers it renders the full
old and full new records, each resolved through the display mapping. -/
theorem content_descriptor_report_spec (old : PrimitiveDescriptor)
    (new : PrimitiveDescriptor) (itemuid_to_string : List (ItemUid × String)) :
    (old.prim_clip_box = new.prim_clip_box ↔
      (old.prim_clip_box.min.x = new.prim_clip_box.min.x ∧
       old.prim_clip_box.min.y = new.prim_clip_box.min.y ∧
       old.prim_clip_box.max.x = new.prim_clip_box.max.x ∧
       old.prim_clip_box.max.y = new.prim_clip_box.max.y))
    ∧ (old.prim_uid = new.prim_uid → old.prim_clip_box = new.prim_clip_box →
        content_change_report (some (.Descriptor old new)) itemuid_to_string =
          descriptor_inplace_header old ++ "<ul>" ++ "<li>Item: " ++
          itemuid_resolve itemuid_to_string old.prim_uid ++ "</li></ul>")
    ∧ (old.prim_uid = new.prim_uid → old.prim_clip_box ≠ new.prim_clip_box →
        content_change_report (some (.Descriptor old new)) itemuid_to_string =
          descriptor_inplace_header old ++ "<ul>" ++ clip_change_li old new ++
          "<li>Item: " ++ itemuid_resolve itemuid_to_string old.prim_uid ++
          "</li></ul>")
    ∧ (old.prim_uid ≠ new.prim_uid →
        content_change_report (some (.Descriptor old new)) itemuid_to_string =
          "<b>Content: Descriptor</b> changed; old uid " ++
          toString old.prim_uid.get_uid ++ ", new uid " ++
          toString new.prim_uid.get_uid ++ ":<br/>" ++
          descriptor_full_dump "old" old itemuid_to_string ++
          descriptor_full_dump "new" new itemuid_to_string) := by
  refine ⟨box_eq_iff_components _ _, ?_, ?_, ?_⟩
  · intro huid hbox
    simp [content_change_report, huid, hbox, String.append_assoc,
      String.append_empty]
  · intro huid hbox
    simp [content_change_report, huid, hbox, String.append_assoc]
  · intro huid
    simp [content_change_report, huid, String.append_assoc]

/-- C7 witness: two records with the same identifier and the same clip
box render the changed-in-place entry with no differing sub-field
lines. -/
theorem content_descriptor_report_spec_witness :
    content_change_report
        (some (.Descriptor ⟨⟨7⟩, ⟨⟨0, 0⟩, ⟨1, 1⟩⟩⟩ ⟨⟨7⟩, ⟨⟨0, 0⟩, ⟨1, 1⟩⟩⟩)) [] =
      descriptor_inplace_header ⟨⟨7⟩, ⟨⟨0, 0⟩, ⟨1, 1⟩⟩⟩ ++ "<ul>" ++
      "<li>Item: " ++ itemuid_resolve [] ⟨7⟩ ++ "</li></ul>" :=
  (content_descriptor_report_spec ⟨⟨7⟩, ⟨⟨0, 0⟩, ⟨1, 1⟩⟩⟩
    ⟨⟨7⟩, ⟨⟨0, 0⟩, ⟨1, 1⟩⟩⟩ []).2.1 rfl rfl

/-- C8: the classification is a pure function of the cause, the tile
background color and the fallback background color (plus the display
mapping for the explanation): two tiles and slices that agree on those
inputs - whatever their rectangles, transforms, slice indices or tile
maps - get the same selected style and the same explanation body.
Mutation-freedom is inherent in the functional embedding: the source
reads all classification inputs through shared references and writes
only the report accumulator, which is modelled by explicit state. -/
theorem classifier_pure_deterministic (t1 t2 : TileSerializer) (s1 s2 : Slice)
    (itemuid_to_string : List (ItemUid × String))
    (hr : t1.invalidation_reason = t2.invalidation_reason)
    (hb : t1.background_color = t2.background_color)
    (hf : s1.tile_cache.background_color = s2.tile_cache.background_color) :
    tile_fill t1 s1 = tile_fill t2 s2
    ∧ Option.map (fun r => reason_report_body r itemuid_to_string)
        t1.invalidation_reason =
      Option.map (fun r => reason_report_body r itemuid_to_string)
        t2.invalidation_reason := by
  constructor
  · rw [tile_fill, tile_fill, hr, hb, hf]
  · rw [hr]

/-- C8 witness: two tiles with different rectangles, in slices with
different transforms, slice indices and tile maps, but identical cause
and background inputs, classify identically. -/
theorem classifier_pure_deterministic_witness :
    tile_fill ⟨⟨⟨0, 0⟩, ⟨1, 1⟩⟩, some .NoTexture, none⟩
        ⟨⟨1, 0, 0, 0, 1, 0, 0, 0, 1⟩, ⟨0, none, []⟩⟩ =
      tile_fill ⟨⟨⟨5, 5⟩, ⟨9, 9⟩⟩, some .NoTexture, none⟩
        ⟨⟨0, 0, 0, 0, 0, 0, 0, 0, 0⟩, ⟨7, none, []⟩⟩
    ∧ Option.map (fun r => reason_report_body r [])
        (some InvalidationReason.NoTexture) =
      Option.map (fun r => reason_report_body r [])
        (some InvalidationReason.NoTexture) :=
  classifier_pure_deterministic
    ⟨⟨⟨0, 0⟩, ⟨1, 1⟩⟩, some .NoTexture, none⟩
    ⟨⟨⟨5, 5⟩, ⟨9, 9⟩⟩, some .NoTexture, none⟩
    ⟨⟨1, 0, 0, 0, 1, 0, 0, 0, 1⟩, ⟨0, none, []⟩⟩
    ⟨⟨0, 0, 0, 0, 0, 0, 0, 0, 0⟩, ⟨7, none, []⟩⟩ [] rfl rfl rfl

/-- The rendering of one update batch: every insertion line, in order,
followed by every removal line, in order. -/
def batch_html (list : UpdateList) : String :=
  str_concat (list.insertions.map insert_line) ++
  str_concat (list.removals.map remove_line)

/-- The rendering of one interning category: its subheading, the
renderings of its batches in supplied order, and the closing markup. -/
def category_html (name : String) (lists : List UpdateList) : String :=
  "<div class=\"subheader\">" ++ name ++ "</div>\n<div class=\"intern data\">\n" ++
  str_concat (lists.map batch_html) ++ "</div><br/>\n"

/-- One batch's contribution to the accumulated report is its insertion
lines then its removal lines appended after the accumulator. -/
theorem batch_fold_eq (html : String) (list : UpdateList) :
    list.removals.foldl (fun h r => h ++ remove_line r)
      (list.insertions.foldl (fun h i => h ++ insert_line i) html) =
    html ++ batch_html list := by
  rw [foldl_append_eq_concat _ insert_line (fun _ _ => rfl),
    foldl_append_eq_concat _ remove_line (fun _ _ => rfl),
    batch_html, String.append_assoc]

set_option maxRecDepth 4000 in
/-- C9: the interning report iterates the supplied categories in order;
each category contributes a subheading followed, batch by batch in
supplied order, by one line per insertion (identifier plus
debug-formatted value) and one line per removal (identifier alone); the
supplied invalidation report is prepended right after the fixed document
head, which carries the two stylesheet links; and on a category with one
insertion batch of two items and one removal batch of one item the
category renders exactly two insertion lines and one removal line, in
the order supplied. -/
theorem updatelist_to_html_spec :
    (∀ (update_lists : List (String × List UpdateList))
       (invalidation_report : String),
      updatelist_to_html update_lists invalidation_report =
        HTML_HEAD ++ invalidation_report ++
        "<div class=\"header\">Interning</div>\n" ++
        str_concat (update_lists.map (fun c => category_html c.1 c.2)) ++
        "</div> </body> </html>\n")
    ∧ (∀ name lists, category_html name lists =
        "<div class=\"subheader\">" ++ name ++
        "</div>\n<div class=\"intern data\">\n" ++
        str_concat (lists.map batch_html) ++ "</div><br/>\n")
    ∧ category_html "texture_cache" [⟨[⟨⟨1⟩, "va"⟩, ⟨⟨2⟩, "vb"⟩], []⟩, ⟨[], [⟨⟨3⟩⟩]⟩] =
        "<div class=\"subheader\">texture_cache</div>\n<div class=\"intern data\">\n" ++
        insert_line ⟨⟨1⟩, "va"⟩ ++ insert_line ⟨⟨2⟩, "vb"⟩ ++
        remove_line ⟨⟨3⟩⟩ ++ "</div><br/>\n"
    ∧ List.IsInfix ("href=\"tilecache_base.css\"").data HTML_HEAD.data
    ∧ List.IsInfix ("href=\"tilecache.css\"").data HTML_HEAD.data := by
  refine ⟨?_, fun name lists => rfl, by decide, by decide, by decide⟩
  intro update_lists invalidation_report
  simp only [updatelist_to_html]
  rw [foldl_append_eq_concat _ (fun c => category_html c.1 c.2)
    (fun h c => by
      show List.foldl _ _ c.2 ++ "</div><br/>\n" = _
      rw [foldl_append_eq_concat _ batch_html (fun h2 l => batch_fold_eq h2 l) c.2]
      simp [category_html, String.append_assoc]) update_lists]

/-- C10: rendering a tile whose cause is primitive-count-changed
succeeds exactly when both the old and the new identifier list are
present: with both lists present the unwraps cannot fail, and with
either list absent tile_to_svg panics (none) instead of degrading
gracefully. -/
theorem tile_to_svg_prim_count_totality (key : TileOffset) (tile : TileSerializer)
    (slice : Slice) (prev_tile : Option TileSerializer)
    (itemuid_to_string : List (ItemUid × String))
    (tile_stroke : String) (prim_class : String) (invalidation_report : String)
    (svg_settings : SvgSettings)
    (oldOpt newOpt : Option (List ItemUid))
    (hr : tile.invalidation_reason = some (.PrimCount oldOpt newOpt)) :
    (tile_to_svg key tile slice prev_tile itemuid_to_string tile_stroke
        prim_class invalidation_report svg_settings).isSome = true ↔
      (oldOpt.isSome = true ∧ newOpt.isSome = true) := by
  cases oldOpt with
  | none => simp [tile_to_svg, hr, reason_report_body]
  | some old =>
      cases newOpt with
      | none => simp [tile_to_svg, hr, reason_report_body]
      | some new => simp [tile_to_svg, hr, reason_report_body]

/-- C10 witness: with both identifier lists present the rendering
returns a result, and with the old list absent it does not. -/
theorem tile_to_svg_prim_count_totality_witness :
    (tile_to_svg ⟨0, 0⟩
        ⟨⟨⟨0, 0⟩, ⟨1, 1⟩⟩, some (.PrimCount (some [⟨1⟩]) (some [⟨2⟩])), none⟩
        ⟨⟨1, 0, 0, 0, 1, 0, 0, 0, 1⟩, ⟨0, none, []⟩⟩ none []
        "stroke:none;" "tile_slice0" "" ⟨1, 0, 0⟩).isSome = true
    ∧ ¬ ((tile_to_svg ⟨0, 0⟩
        ⟨⟨⟨0, 0⟩, ⟨1, 1⟩⟩, some (.PrimCount none (some [⟨2⟩])), none⟩
        ⟨⟨1, 0, 0, 0, 1, 0, 0, 0, 1⟩, ⟨0, none, []⟩⟩ none []
        "stroke:none;" "tile_slice0" "" ⟨1, 0, 0⟩).isSome = true) :=
  ⟨(tile_to_svg_prim_count_totality _ _ _ none [] _ _ _ _
      (some [⟨1⟩]) (some [⟨2⟩]) rfl).mpr ⟨rfl, rfl⟩,
   fun h => by
     have := (tile_to_svg_prim_count_totality _ _ _ none [] _ _ _ _
       none (some [⟨2⟩]) rfl).mp h
     simp at this⟩
